import Mathlib

/-!
Verification of the asset-inventory backend handlers.

The relational store is modelled as lists of rows; each handler is a pure
function from a store (plus the values the runtime supplies: the current
time and freshly generated ids) to a result and the successor store.
Row ids are Strings, timestamps are Nat UTC milliseconds. A drizzle
`select().where(eq(col, v))` followed by taking element 0 is modelled by
`List.find?`; `update().set().where(eq(col, v))` by `List.map` guarded on
the key; `insert` by list append; `delete().where` by `List.filter`.
Handlers that `throw new Error(msg)` return `Except.error msg`.
-/

namespace Siac

inductive AssetCondition
  | NEW | GOOD | UNDER_REPAIR | DAMAGED
  deriving DecidableEq

inductive AssetCategory
  | MONITOR | CPU | AC | CHAIR | TABLE | DISPENSER | CCTV | ROUTER | LAN_CABLE | OTHER
  deriving DecidableEq

inductive UserRole
  | ADMIN | EMPLOYEE
  deriving DecidableEq

inductive ComplaintStatus
  | NEEDS_REPAIR | URGENT | UNDER_REPAIR | RESOLVED
  deriving DecidableEq

/-- Stringification of a condition, as stored in AssetHistory old/new values. -/
def condStr : AssetCondition → String
  | .NEW => "NEW"
  | .GOOD => "GOOD"
  | .UNDER_REPAIR => "UNDER_REPAIR"
  | .DAMAGED => "DAMAGED"

/-- Stringification of a category, as stored in AssetHistory old/new values. -/
def catStr : AssetCategory → String
  | .MONITOR => "MONITOR"
  | .CPU => "CPU"
  | .AC => "AC"
  | .CHAIR => "CHAIR"
  | .TABLE => "TABLE"
  | .DISPENSER => "DISPENSER"
  | .CCTV => "CCTV"
  | .ROUTER => "ROUTER"
  | .LAN_CABLE => "LAN_CABLE"
  | .OTHER => "OTHER"

/-- Stringification of a complaint status, as stored in AssetHistory old/new values. -/
def statusStr : ComplaintStatus → String
  | .NEEDS_REPAIR => "NEEDS_REPAIR"
  | .URGENT => "URGENT"
  | .UNDER_REPAIR => "UNDER_REPAIR"
  | .RESOLVED => "RESOLVED"

structure Asset where
  id : String
  name : String
  description : Option String
  category : AssetCategory
  condition : AssetCondition
  owner : Option String
  photo_url : Option String
  qr_code : String
  is_archived : Bool
  created_at : Nat
  updated_at : Nat
  deriving DecidableEq

structure User where
  id : String
  email : String
  password_hash : String
  role : UserRole
  full_name : String
  is_active : Bool
  created_at : Nat
  updated_at : Nat
  deriving DecidableEq

structure Complaint where
  id : String
  asset_id : String
  complainant_name : String
  status : ComplaintStatus
  description : String
  created_at : Nat
  updated_at : Nat
  deriving DecidableEq

structure AssetHistory where
  id : String
  asset_id : String
  field_name : String
  old_value : Option String
  new_value : Option String
  changed_by : Option String
  changed_at : Nat
  deriving DecidableEq

structure MaintenanceSchedule where
  id : String
  asset_id : String
  title : String
  description : Option String
  scheduled_date : Nat
  is_completed : Bool
  created_by : String
  created_at : Nat
  updated_at : Nat
  deriving DecidableEq

structure UserActivityLog where
  id : String
  user_id : String
  action : String
  entity_type : String
  entity_id : Option String
  details : Option String
  timestamp : Nat
  deriving DecidableEq

/-- The whole relational store. -/
structure DB where
  assets : List Asset
  users : List User
  complaints : List Complaint
  asset_history : List AssetHistory
  maintenance_schedules : List MaintenanceSchedule
  user_activity_logs : List UserActivityLog
  deriving DecidableEq

def emptyDB : DB := ⟨[], [], [], [], [], []⟩

/-- Row lookup: `select().from(assetsTable).where(eq(assetsTable.id, id))` then row 0. -/
def findAsset (db : DB) (id : String) : Option Asset :=
  db.assets.find? (fun a => decide (a.id = id))

/-- Row lookup: `select().from(complaintsTable).where(eq(complaintsTable.id, id))` then row 0. -/
def findComplaint (db : DB) (id : String) : Option Complaint :=
  db.complaints.find? (fun c => decide (c.id = id))

/-- Row lookup: `select().from(usersTable).where(eq(usersTable.id, id))` then row 0. -/
def findUser (db : DB) (id : String) : Option User :=
  db.users.find? (fun u => decide (u.id = id))

/-! ## updateAsset (handlers/update_asset) -/

structure UpdateAssetInput where
  id : String
  name : Option String
  description : Option (Option String)
  category : Option AssetCategory
  condition : Option AssetCondition
  owner : Option (Option String)
  photo_url : Option (Option String)
  deriving DecidableEq

/-- The staged field-level diff list of updateAsset: one entry
`(field_name, old_value, new_value)` per optional input field that is
present and differs from the stored value, in source order. -/
def assetChanges (input : UpdateAssetInput) (a : Asset) :
    List (String × Option String × Option String) :=
  (match input.name with
    | some n => if n ≠ a.name then [("name", some a.name, some n)] else []
    | none => []) ++
  (match input.description with
    | some d => if d ≠ a.description then [("description", a.description, d)] else []
    | none => []) ++
  (match input.category with
    | some c => if c ≠ a.category then [("category", some (catStr a.category), some (catStr c))] else []
    | none => []) ++
  (match input.condition with
    | some c => if c ≠ a.condition then [("condition", some (condStr a.condition), some (condStr c))] else []
    | none => []) ++
  (match input.owner with
    | some o => if o ≠ a.owner then [("owner", a.owner, o)] else []
    | none => []) ++
  (match input.photo_url with
    | some p => if p ≠ a.photo_url then [("photo_url", a.photo_url, p)] else []
    | none => [])

/-- Applying updateAsset's `updateData` to a row: each field present in the
input and different from the stored value is overwritten, and `updated_at`
is refreshed. -/
def applyAssetUpdate (input : UpdateAssetInput) (now : Nat) (a : Asset) : Asset :=
  { a with
    updated_at := now
    name := match input.name with
      | some n => if n ≠ a.name then n else a.name
      | none => a.name
    description := match input.description with
      | some d => if d ≠ a.description then d else a.description
      | none => a.description
    category := match input.category with
      | some c => if c ≠ a.category then c else a.category
      | none => a.category
    condition := match input.condition with
      | some c => if c ≠ a.condition then c else a.condition
      | none => a.condition
    owner := match input.owner with
      | some o => if o ≠ a.owner then o else a.owner
      | none => a.owner
    photo_url := match input.photo_url with
      | some p => if p ≠ a.photo_url then p else a.photo_url
      | none => a.photo_url }

/-- updateAsset. `now` is the value of `new Date()`; `fid i` is the fresh
random id generated for the i-th history entry. -/
def updateAsset (db : DB) (input : UpdateAssetInput) (now : Nat) (fid : Nat → String) :
    Except String (Asset × DB) :=
  match findAsset db input.id with
  | none => .error ("Asset with id " ++ input.id ++ " not found")
  | some existingAsset =>
    let changes := assetChanges input existingAsset
    if changes.isEmpty then
      .ok (existingAsset, db)
    else
      let assets' := db.assets.map (fun a =>
        if a.id = input.id then applyAssetUpdate input now a else a)
      let historyEntries := changes.enum.map (fun p =>
        { id := fid p.1, asset_id := input.id, field_name := p.2.1,
          old_value := p.2.2.1, new_value := p.2.2.2,
          changed_by := none, changed_at := now : AssetHistory })
      .ok (applyAssetUpdate input now existingAsset,
        { db with assets := assets',
                  asset_history := db.asset_history ++ historyEntries })

/-! ## updateComplaint (handlers/update_complaint) -/

structure UpdateComplaintInput where
  id : String
  status : Option ComplaintStatus
  description : Option String
  deriving DecidableEq

/-- Applying updateComplaint's `updateData` to a row: status/description are
overwritten when present in the input, `updated_at` is always refreshed. -/
def applyComplaintUpdate (input : UpdateComplaintInput) (now : Nat) (c : Complaint) : Complaint :=
  { c with
    updated_at := now
    status := input.status.getD c.status
    description := input.description.getD c.description }

/-- updateComplaint. `now` is `new Date()`; `hid1`/`hid2` are the fresh uuids
for the complaint_status and condition history rows respectively. -/
def updateComplaint (db : DB) (input : UpdateComplaintInput) (now : Nat)
    (hid1 hid2 : String) : Except String (Complaint × DB) :=
  match findComplaint db input.id with
  | none => .error ("Complaint with id " ++ input.id ++ " not found")
  | some complaint =>
    let complaints1 := db.complaints.map (fun c =>
      if c.id = input.id then applyComplaintUpdate input now c else c)
    let updatedComplaint := applyComplaintUpdate input now complaint
    let db1 := { db with complaints := complaints1 }
    match input.status with
    | none => .ok (updatedComplaint, db1)
    | some st =>
      if st = complaint.status then .ok (updatedComplaint, db1)
      else
        let hrow1 : AssetHistory :=
          { id := hid1, asset_id := complaint.asset_id, field_name := "complaint_status",
            old_value := some (statusStr complaint.status), new_value := some (statusStr st),
            changed_by := none, changed_at := now }
        let db2 := { db1 with asset_history := db1.asset_history ++ [hrow1] }
        if st = ComplaintStatus.RESOLVED then
          let otherComplaints := db2.complaints.filter (fun c =>
            decide (c.asset_id = complaint.asset_id))
          let hasUnresolved := otherComplaints.any (fun c =>
            decide (¬ c.id = input.id ∧ ¬ c.status = ComplaintStatus.RESOLVED))
          if hasUnresolved then .ok (updatedComplaint, db2)
          else
            match findAsset db2 complaint.asset_id with
            | none => .ok (updatedComplaint, db2)
            | some asset =>
              if asset.condition = AssetCondition.UNDER_REPAIR then
                let assets' := db2.assets.map (fun a =>
                  if a.id = complaint.asset_id then
                    { a with condition := AssetCondition.GOOD, updated_at := now }
                  else a)
                let hrow2 : AssetHistory :=
                  { id := hid2, asset_id := complaint.asset_id, field_name := "condition",
                    old_value := some "UNDER_REPAIR", new_value := some "GOOD",
                    changed_by := none, changed_at := now }
                .ok (updatedComplaint,
                  { db2 with assets := assets',
                             asset_history := db2.asset_history ++ [hrow2] })
              else .ok (updatedComplaint, db2)
        else .ok (updatedComplaint, db2)

/-! ## restoreAsset (handlers/restore_asset) -/

/-- The system-actor User row inserted lazily by restoreAsset. The source
insert leaves created_at/updated_at to the store defaults (now). -/
def systemUserRow (now : Nat) : User :=
  { id := "system", email := "system@internal.com", password_hash := "N/A",
    role := UserRole.ADMIN, full_name := "System User", is_active := false,
    created_at := now, updated_at := now }

/-- restoreAsset. `now` is `new Date()`; `logId` the fresh uuid of the
activity-log row. -/
def restoreAsset (db : DB) (id : String) (now : Nat) (logId : String) :
    Except String (Asset × DB) :=
  match findAsset db id with
  | none => .error ("Asset with id " ++ id ++ " not found")
  | some existingAsset =>
    if existingAsset.is_archived = false then
      .error ("Asset with id " ++ id ++ " is not archived")
    else
      let assets' := db.assets.map (fun a =>
        if a.id = id then { a with is_archived := false, updated_at := now } else a)
      let restoredAsset := { existingAsset with is_archived := false, updated_at := now }
      let users' :=
        match findUser db "system" with
        | some _ => db.users
        | none => db.users ++ [systemUserRow now]
      let logRow : UserActivityLog :=
        { id := logId, user_id := "system", action := "RESTORE_ASSET",
          entity_type := "ASSET", entity_id := some id,
          details := some ("Asset \"" ++ restoredAsset.name ++ "\" restored from archive"),
          timestamp := now }
      .ok (restoredAsset,
        { db with assets := assets', users := users',
                  user_activity_logs := db.user_activity_logs ++ [logRow] })

/-! ## deleteAsset (handlers/delete_asset) -/

/-- deleteAsset: returns the `{success}` flag and the successor store. -/
def deleteAsset (db : DB) (id : String) (permanent : Bool) (now : Nat) : Bool × DB :=
  match findAsset db id with
  | none => (false, db)
  | some _ =>
    if permanent then
      (true,
        { db with
          complaints := db.complaints.filter (fun c => !(decide (c.asset_id = id))),
          asset_history := db.asset_history.filter (fun h => !(decide (h.asset_id = id))),
          maintenance_schedules :=
            db.maintenance_schedules.filter (fun m => !(decide (m.asset_id = id))),
          assets := db.assets.filter (fun a => !(decide (a.id = id))) })
    else
      (true,
        { db with assets := db.assets.map (fun a =>
            if a.id = id then { a with is_archived := true, updated_at := now } else a) })

/-! ## createAsset (handlers/create_asset) -/

structure CreateAssetInput where
  name : String
  description : Option String
  category : AssetCategory
  condition : AssetCondition
  owner : Option String
  photo_url : Option String
  deriving DecidableEq

/-- createAsset. `newId`/`logId` are the fresh uuids, `now` the store default
timestamp. `logFails` models the activity-log insert throwing: the handler
catches that failure and discards it, so the asset write still stands. -/
def createAsset (db : DB) (input : CreateAssetInput) (newId logId : String) (now : Nat)
    (logFails : Bool) : Asset × DB :=
  let asset : Asset :=
    { id := newId, name := input.name, description := input.description,
      category := input.category, condition := input.condition, owner := input.owner,
      photo_url := input.photo_url, qr_code := "QR_" ++ newId, is_archived := false,
      created_at := now, updated_at := now }
  let db1 := { db with assets := db.assets ++ [asset] }
  match input.owner with
  | none => (asset, db1)
  | some ownerId =>
    if ownerId = "" then (asset, db1)
    else
      match findUser db1 ownerId with
      | none => (asset, db1)
      | some _ =>
        if logFails then (asset, db1)
        else
          let logRow : UserActivityLog :=
            { id := logId, user_id := ownerId, action := "CREATE", entity_type := "ASSET",
              entity_id := some asset.id,
              details := some ("Created asset: " ++ asset.name ++ " (" ++
                catStr asset.category ++ ")"),
              timestamp := now }
          (asset, { db1 with user_activity_logs := db1.user_activity_logs ++ [logRow] })

/-! ## getAssets (handlers/get_assets) -/

/-- Char-list prefix test, for the case-insensitive substring match. -/
def leadMatch : List Char → List Char → Bool
  | [], _ => true
  | _ :: _, [] => false
  | a :: as, b :: bs => decide (a = b) && leadMatch as bs

/-- Char-list substring test. -/
def hasSub (pat : List Char) : List Char → Bool
  | [] => pat.isEmpty
  | c :: rest => leadMatch pat (c :: rest) || hasSub pat rest

/-- Containment test for `ilike(col, %s%)`: case-insensitive substring. -/
def containsCI (hay pat : String) : Bool :=
  hasSub pat.toLower.data hay.toLower.data

structure AssetFilters where
  search : Option String
  category : Option AssetCategory
  condition : Option AssetCondition
  owner : Option String
  is_archived : Option Bool
  deriving DecidableEq

def noFilters : AssetFilters := ⟨none, none, none, none, none⟩

/-- The conjunction of the conditions getAssets pushes for one row. -/
def assetMatches (f : AssetFilters) (a : Asset) : Bool :=
  (match f.search with
    | some s =>
      if s ≠ "" ∧ s.trim ≠ "" then
        containsCI a.name s || (match a.description with
          | some d => containsCI d s
          | none => false)
      else true
    | none => true) &&
  (match f.category with
    | some c => decide (a.category = c)
    | none => true) &&
  (match f.condition with
    | some c => decide (a.condition = c)
    | none => true) &&
  (match f.owner with
    | some o =>
      if o = "" ∨ o = "null" then decide (a.owner = none) else decide (a.owner = some o)
    | none => true) &&
  (match f.is_archived with
    | some b => decide (a.is_archived = b)
    | none => true)

def getAssets (db : DB) (f : AssetFilters) : List Asset :=
  db.assets.filter (assetMatches f)

/-! ## getDashboardStats (handlers/get_dashboard_stats) -/

def msPerDay : Nat := 86400000

def allConditions : List AssetCondition :=
  [.NEW, .GOOD, .UNDER_REPAIR, .DAMAGED]

def allCategories : List AssetCategory :=
  [.MONITOR, .CPU, .AC, .CHAIR, .TABLE, .DISPENSER, .CCTV, .ROUTER, .LAN_CABLE, .OTHER]

/-- The `Record<string, number>` built from the group-by rows: one entry per
group actually present (count nonzero), in canonical enum order. -/
structure DashboardStats where
  total_assets : Nat
  assets_by_condition : List (AssetCondition × Nat)
  assets_by_category : List (AssetCategory × Nat)
  pending_complaints : Nat
  upcoming_maintenance : Nat
  recent_activities : Nat
  archived_assets : Nat
  deriving DecidableEq

/-- getDashboardStats. `now` is `new Date()`; the 30-day and 7-day offsets
of `setDate(getDate() ± k)` are modelled as k days of milliseconds. -/
def getDashboardStats (db : DB) (now : Nat) : DashboardStats :=
  let nonArchived := db.assets.filter (fun a => decide (a.is_archived = false))
  { total_assets := db.assets.length
    archived_assets := (db.assets.filter (fun a => decide (a.is_archived = true))).length
    assets_by_condition :=
      (allConditions.map (fun c =>
        (c, (nonArchived.filter (fun a => decide (a.condition = c))).length))).filter
        (fun p => decide (p.2 ≠ 0))
    assets_by_category :=
      (allCategories.map (fun c =>
        (c, (nonArchived.filter (fun a => decide (a.category = c))).length))).filter
        (fun p => decide (p.2 ≠ 0))
    pending_complaints :=
      (db.complaints.filter (fun c => decide (¬ c.status = ComplaintStatus.RESOLVED))).length
    upcoming_maintenance :=
      (db.maintenance_schedules.filter (fun m =>
        decide (m.is_completed = false ∧ now ≤ m.scheduled_date ∧
          m.scheduled_date ≤ now + 30 * msPerDay))).length
    recent_activities :=
      (db.user_activity_logs.filter (fun l =>
        decide (now - 7 * msPerDay ≤ l.timestamp))).length }

/-! ## sendNotificationEmail (handlers/send_notification_email) -/

/-- The notification type arrives as a loosely-typed string and is checked at
runtime against the closed set. -/
structure EmailNotification where
  recipients : List String
  subject : String
  body : String
  type : String
  deriving DecidableEq

structure EmailResult where
  success : Bool
  messageId : Option String
  error : Option String
  deriving DecidableEq

/-- The mock transport: rejects an address that is empty or lacks an `@`,
otherwise reports success with the generated message id. -/
def mockSendEmail (rcpts : List String) (messageId : String) : EmailResult :=
  match rcpts.find? (fun e => decide (e = "") || !(e.contains '@')) with
  | some e =>
    { success := false, messageId := none,
      error := some ("Invalid email address: " ++ e) }
  | none => { success := true, messageId := some messageId, error := none }

/-- sendNotificationEmail: the result together with a flag recording whether
the transport was invoked at all (the HTML templating, a pure string
rendering, is not observable in the result and is not modelled). -/
def sendNotificationEmail (n : EmailNotification) (messageId : String) :
    EmailResult × Bool :=
  if n.recipients.isEmpty then
    ({ success := false, messageId := none, error := some "No recipients specified" }, false)
  else if n.subject = "" ∨ n.subject.trim = "" then
    ({ success := false, messageId := none, error := some "Subject cannot be empty" }, false)
  else if n.body = "" ∨ n.body.trim = "" then
    ({ success := false, messageId := none, error := some "Email body cannot be empty" }, false)
  else if ¬ (["complaint", "maintenance", "status_change"].contains n.type) then
    ({ success := false, messageId := none, error := some "Invalid notification type" }, false)
  else
    (mockSendEmail n.recipients messageId, true)

/-! ## Helper lemmas -/

/-- A keyed row update commutes with row lookup when the update preserves
the key. -/
theorem find?_map_comm {α : Type} (l : List α) (p : α → Bool) (g : α → α)
    (hp : ∀ x, p (g x) = p x) : (l.map g).find? p = (l.find? p).map g := by
  induction l with
  | nil => rfl
  | cons x xs ih =>
    by_cases h : p x = true
    · simp [List.find?_cons, hp, h]
    · simp only [Bool.not_eq_true] at h
      simp [List.find?_cons, hp, h, ih]

/-! ## Sample rows used by the witnesses -/

def wAsset : Asset :=
  { id := "a1", name := "MonA", description := none, category := AssetCategory.MONITOR,
    condition := AssetCondition.NEW, owner := none, photo_url := none, qr_code := "QR_a1",
    is_archived := false, created_at := 0, updated_at := 0 }

def wDB : DB :=
  { assets := [wAsset], users := [], complaints := [], asset_history := [],
    maintenance_schedules := [], user_activity_logs := [] }

/-! ## Claim theorems -/

/-- C3: updateAsset with every provided field equal to the stored value
performs no write at all (the store is returned untouched, updated_at
included), appends zero AssetHistory rows, and returns the stored row. -/
theorem updateAsset_noop_identity (db : DB) (input : UpdateAssetInput) (a : Asset)
    (now : Nat) (fid : Nat → String)
    (hfind : findAsset db input.id = some a)
    (hname : input.name = none ∨ input.name = some a.name)
    (hdesc : input.description = none ∨ input.description = some a.description)
    (hcat : input.category = none ∨ input.category = some a.category)
    (hcond : input.condition = none ∨ input.condition = some a.condition)
    (howner : input.owner = none ∨ input.owner = some a.owner)
    (hphoto : input.photo_url = none ∨ input.photo_url = some a.photo_url) :
    updateAsset db input now fid = Except.ok (a, db) := by
  have hch : assetChanges input a = [] := by
    rcases hname with h1 | h1 <;> rcases hdesc with h2 | h2 <;>
      rcases hcat with h3 | h3 <;> rcases hcond with h4 | h4 <;>
      rcases howner with h5 | h5 <;> rcases hphoto with h6 | h6 <;>
      simp [assetChanges, h1, h2, h3, h4, h5, h6]
  simp [updateAsset, hfind, hch]

/-- Witness for C3: a one-asset store, an input repeating the stored
condition, name and (null) owner. -/
theorem updateAsset_noop_identity_witness :
    updateAsset wDB
      { id := "a1", name := some "MonA", description := none, category := none,
        condition := some AssetCondition.NEW, owner := some none, photo_url := none }
      9 (fun n => toString n) = Except.ok (wAsset, wDB) :=
  updateAsset_noop_identity wDB _ wAsset 9 _ (by decide) (by decide) (by decide)
    (by decide) (by decide) (by decide) (by decide)

/-- C7: with no other filters, an owner filter of the empty string and of the
literal string "null" return the identical row set, namely the assets whose
owner is database-null; an absent owner value applies no filter at all. -/
theorem getAssets_null_owner_sentinels (db : DB) :
    getAssets db { noFilters with owner := some "" } =
      getAssets db { noFilters with owner := some "null" } ∧
    getAssets db { noFilters with owner := some "" } =
      db.assets.filter (fun a => decide (a.owner = none)) ∧
    getAssets db noFilters = db.assets := by
  refine ⟨?_, ?_, ?_⟩
  · exact List.filter_congr (fun a _ => by simp [assetMatches, noFilters])
  · exact List.filter_congr (fun a _ => by simp [assetMatches, noFilters])
  · exact List.filter_eq_self.mpr (fun a _ => by simp [assetMatches, noFilters])

/-- Witness for C7: instantiation at the one-asset store (whose single asset
has a null owner). -/
theorem getAssets_null_owner_sentinels_witness :
    getAssets wDB { noFilters with owner := some "" } =
      getAssets wDB { noFilters with owner := some "null" } ∧
    getAssets wDB { noFilters with owner := some "" } =
      wDB.assets.filter (fun a => decide (a.owner = none)) ∧
    getAssets wDB noFilters = wDB.assets :=
  getAssets_null_owner_sentinels wDB

/-- C9: sendNotificationEmail validates before any dispatch attempt: an empty
recipient list, a whitespace-only (or empty) subject or body, or a type
outside the closed set means no transport call and a failure result. -/
theorem sendNotificationEmail_validates (n : EmailNotification) (mid : String)
    (h : n.recipients = [] ∨ n.subject.trim = "" ∨ n.body.trim = "" ∨
      (n.type ≠ "complaint" ∧ n.type ≠ "maintenance" ∧ n.type ≠ "status_change")) :
    (sendNotificationEmail n mid).1.success = false ∧
    (sendNotificationEmail n mid).2 = false := by
  unfold sendNotificationEmail
  rcases h with h | h | h | h <;> split_ifs <;> simp_all

/-- Witness for C9: an unknown notification type is rejected without
dispatch. -/
theorem sendNotificationEmail_validates_witness :
    (sendNotificationEmail ⟨["x@y.z"], "s", "b", "spam"⟩ "m").1.success = false ∧
    (sendNotificationEmail ⟨["x@y.z"], "s", "b", "spam"⟩ "m").2 = false :=
  sendNotificationEmail_validates ⟨["x@y.z"], "s", "b", "spam"⟩ "m"
    (Or.inr (Or.inr (Or.inr ⟨by decide, by decide, by decide⟩)))

def wArchAsset : Asset :=
  { wAsset with id := "a2", qr_code := "QR_a2", is_archived := true }

def wDB4 : DB :=
  { assets := [wArchAsset], users := [], complaints := [], asset_history := [],
    maintenance_schedules := [], user_activity_logs := [] }

/-- C4: restoreAsset fails for an absent id, fails for a non-archived asset,
and for an archived asset clears the flag, refreshes updated_at, and appends
exactly one RESTORE_ASSET activity-log row attributed to the "system" actor,
whose (inactive, hence non-human) User row is inserted lazily when absent. -/
theorem restoreAsset_spec (db : DB) (id : String) (now : Nat) (lid : String) (a : Asset) :
    (findAsset db id = none →
      restoreAsset db id now lid = Except.error ("Asset with id " ++ id ++ " not found")) ∧
    (findAsset db id = some a → a.is_archived = false →
      restoreAsset db id now lid = Except.error ("Asset with id " ++ id ++ " is not archived")) ∧
    (findAsset db id = some a → a.is_archived = true →
      ∃ db', restoreAsset db id now lid =
          Except.ok ({ a with is_archived := false, updated_at := now }, db') ∧
        findAsset db' id = some { a with is_archived := false, updated_at := now } ∧
        db'.user_activity_logs = db.user_activity_logs ++
          [{ id := lid, user_id := "system", action := "RESTORE_ASSET",
             entity_type := "ASSET", entity_id := some id,
             details := some ("Asset \"" ++ a.name ++ "\" restored from archive"),
             timestamp := now }] ∧
        (findUser db "system" = none → db'.users = db.users ++ [systemUserRow now]) ∧
        (findUser db "system" ≠ none → db'.users = db.users) ∧
        db'.complaints = db.complaints ∧
        db'.asset_history = db.asset_history) := by
  refine ⟨?_, ?_, ?_⟩
  · intro h; simp [restoreAsset, h]
  · intro ha hf; simp [restoreAsset, ha, hf]
  · intro ha ht
    have haid : a.id = id := by simpa using List.find?_some ha
    refine ⟨{ db with
        assets := db.assets.map (fun x =>
          if x.id = id then { x with is_archived := false, updated_at := now } else x),
        users := match findUser db "system" with
          | some _ => db.users
          | none => db.users ++ [systemUserRow now],
        user_activity_logs := db.user_activity_logs ++
          [{ id := lid, user_id := "system", action := "RESTORE_ASSET",
             entity_type := "ASSET", entity_id := some id,
             details := some ("Asset \"" ++ a.name ++ "\" restored from archive"),
             timestamp := now }] },
      ?_, ?_, rfl, ?_, ?_, rfl, rfl⟩
    · simp [restoreAsset, ha, ht]
    · have hff : findAsset db id = some a := ha
      simp only [findAsset] at hff ⊢
      rw [find?_map_comm _ _ _ (fun x => by by_cases hx : x.id = id <;> simp [hx])]
      simp [hff, haid]
    · intro h; simp [h]
    · intro h
      rcases hs : findUser db "system" with _ | u
      · exact absurd hs h
      · simp [hs]

/-- Witness for C4: an archived asset in a store with no users, so the system
actor row is created lazily. -/
theorem restoreAsset_spec_witness :
    findAsset wDB4 "a2" = some wArchAsset ∧ wArchAsset.is_archived = true ∧
    (∃ db', restoreAsset wDB4 "a2" 3 "L" =
        Except.ok ({ wArchAsset with is_archived := false, updated_at := 3 }, db') ∧
      findAsset db' "a2" = some { wArchAsset with is_archived := false, updated_at := 3 } ∧
      db'.user_activity_logs = wDB4.user_activity_logs ++
        [{ id := "L", user_id := "system", action := "RESTORE_ASSET",
           entity_type := "ASSET", entity_id := some "a2",
           details := some ("Asset \"" ++ wArchAsset.name ++ "\" restored from archive"),
           timestamp := 3 }] ∧
      (findUser wDB4 "system" = none → db'.users = wDB4.users ++ [systemUserRow 3]) ∧
      (findUser wDB4 "system" ≠ none → db'.users = wDB4.users) ∧
      db'.complaints = wDB4.complaints ∧
      db'.asset_history = wDB4.asset_history) :=
  ⟨by decide, rfl, (restoreAsset_spec wDB4 "a2" 3 "L" wArchAsset).2.2 (by decide) rfl⟩

def wComplaint : Complaint :=
  { id := "c1", asset_id := "a1", complainant_name := "Bob",
    status := ComplaintStatus.UNDER_REPAIR, description := "broken",
    created_at := 0, updated_at := 0 }

def wHist : AssetHistory :=
  { id := "h1", asset_id := "a1", field_name := "condition", old_value := some "NEW",
    new_value := some "GOOD", changed_by := none, changed_at := 0 }

def wMaint : MaintenanceSchedule :=
  { id := "m1", asset_id := "a1", title := "tune", description := none,
    scheduled_date := 5, is_completed := false, created_by := "u1",
    created_at := 0, updated_at := 0 }

def wDB5 : DB :=
  { assets := [wAsset], users := [], complaints := [wComplaint],
    asset_history := [wHist], maintenance_schedules := [wMaint],
    user_activity_logs := [] }

/-- C5: hard delete removes every Complaint, AssetHistory and
MaintenanceSchedule row referencing the asset and then the asset row itself,
touching nothing else; a nonexistent id yields success=false without an
error, on both paths. -/
theorem deleteAsset_spec (db : DB) (id : String) (now : Nat) (a : Asset) :
    (findAsset db id = none → ∀ perm, deleteAsset db id perm now = (false, db)) ∧
    (findAsset db id = some a →
      (deleteAsset db id true now).1 = true ∧
      (∀ c ∈ (deleteAsset db id true now).2.complaints, ¬ c.asset_id = id) ∧
      (∀ h ∈ (deleteAsset db id true now).2.asset_history, ¬ h.asset_id = id) ∧
      (∀ m ∈ (deleteAsset db id true now).2.maintenance_schedules, ¬ m.asset_id = id) ∧
      (∀ b ∈ (deleteAsset db id true now).2.assets, ¬ b.id = id) ∧
      (∀ c ∈ db.complaints, ¬ c.asset_id = id →
        c ∈ (deleteAsset db id true now).2.complaints) ∧
      (∀ h ∈ db.asset_history, ¬ h.asset_id = id →
        h ∈ (deleteAsset db id true now).2.asset_history) ∧
      (∀ m ∈ db.maintenance_schedules, ¬ m.asset_id = id →
        m ∈ (deleteAsset db id true now).2.maintenance_schedules) ∧
      (∀ b ∈ db.assets, ¬ b.id = id → b ∈ (deleteAsset db id true now).2.assets) ∧
      (deleteAsset db id true now).2.users = db.users ∧
      (deleteAsset db id true now).2.user_activity_logs = db.user_activity_logs) := by
  constructor
  · intro h perm; simp [deleteAsset, h]
  · intro ha
    refine ⟨by simp [deleteAsset, ha], ?_, ?_, ?_, ?_, ?_, ?_, ?_, ?_,
        by simp [deleteAsset, ha], by simp [deleteAsset, ha]⟩ <;>
      simp [deleteAsset, ha, List.mem_filter] <;> tauto

/-- Witness for C5: a store holding the asset plus one complaint, one history
row and one schedule, all referencing it. -/
theorem deleteAsset_spec_witness :
    findAsset wDB5 "a1" = some wAsset ∧
    ((deleteAsset wDB5 "a1" true 7).1 = true ∧
      (∀ c ∈ (deleteAsset wDB5 "a1" true 7).2.complaints, ¬ c.asset_id = "a1") ∧
      (∀ h ∈ (deleteAsset wDB5 "a1" true 7).2.asset_history, ¬ h.asset_id = "a1") ∧
      (∀ m ∈ (deleteAsset wDB5 "a1" true 7).2.maintenance_schedules, ¬ m.asset_id = "a1") ∧
      (∀ b ∈ (deleteAsset wDB5 "a1" true 7).2.assets, ¬ b.id = "a1") ∧
      (∀ c ∈ wDB5.complaints, ¬ c.asset_id = "a1" →
        c ∈ (deleteAsset wDB5 "a1" true 7).2.complaints) ∧
      (∀ h ∈ wDB5.asset_history, ¬ h.asset_id = "a1" →
        h ∈ (deleteAsset wDB5 "a1" true 7).2.asset_history) ∧
      (∀ m ∈ wDB5.maintenance_schedules, ¬ m.asset_id = "a1" →
        m ∈ (deleteAsset wDB5 "a1" true 7).2.maintenance_schedules) ∧
      (∀ b ∈ wDB5.assets, ¬ b.id = "a1" → b ∈ (deleteAsset wDB5 "a1" true 7).2.assets) ∧
      (deleteAsset wDB5 "a1" true 7).2.users = wDB5.users ∧
      (deleteAsset wDB5 "a1" true 7).2.user_activity_logs = wDB5.user_activity_logs) :=
  ⟨by decide, (deleteAsset_spec wDB5 "a1" 7 wAsset).2 (by decide)⟩

def wUser : User :=
  { id := "u1", email := "u1@x.y", password_hash := "h", role := UserRole.EMPLOYEE,
    full_name := "U One", is_active := true, created_at := 0, updated_at := 0 }

def wDB6 : DB :=
  { assets := [], users := [wUser], complaints := [], asset_history := [],
    maintenance_schedules := [], user_activity_logs := [] }

/-- A row update keyed on users only is invisible to findUser. -/
theorem findUser_assets_irrel (db : DB) (xs : List Asset) (id : String) :
    findUser { db with assets := xs } id = findUser db id := rfl

/-- C6: when the input owner is a non-empty string naming an existing active
user, createAsset appends exactly one CREATE activity-log row attributed to
that user; and if the log insert fails, the failure is swallowed and the
asset is still persisted and returned. -/
theorem createAsset_owner_logging (db : DB) (input : CreateAssetInput)
    (oid nid lid : String) (now : Nat) (u : User)
    (howner : input.owner = some oid) (hne : ¬ oid = "")
    (huser : findUser db oid = some u) (hactive : u.is_active = true) :
    ∀ logFails,
      (createAsset db input nid lid now logFails).2.assets =
        db.assets ++ [(createAsset db input nid lid now logFails).1] ∧
      (createAsset db input nid lid now logFails).1.id = nid ∧
      (createAsset db input nid lid now logFails).1.owner = some oid ∧
      (logFails = false →
        (createAsset db input nid lid now logFails).2.user_activity_logs =
          db.user_activity_logs ++
          [{ id := lid, user_id := oid, action := "CREATE", entity_type := "ASSET",
             entity_id := some nid,
             details := some ("Created asset: " ++ input.name ++ " (" ++
               catStr input.category ++ ")"),
             timestamp := now }]) ∧
      (logFails = true →
        (createAsset db input nid lid now logFails).2.user_activity_logs =
          db.user_activity_logs) := by
  intro logFails
  cases logFails <;>
    simp [createAsset, howner, hne, findUser_assets_irrel, huser]

/-- Witness for C6: owner "u1" names the store's one active user; both the
failing-log and the successful-log runs are covered. -/
def wInput6 : CreateAssetInput :=
  { name := "CamX", description := none, category := AssetCategory.CCTV,
    condition := AssetCondition.NEW, owner := some "u1", photo_url := none }

theorem createAsset_owner_logging_witness :
    wInput6.owner = some "u1" ∧ findUser wDB6 "u1" = some wUser ∧
    wUser.is_active = true ∧
    ∀ logFails,
      (createAsset wDB6 wInput6 "n1" "L1" 4 logFails).2.assets =
        wDB6.assets ++ [(createAsset wDB6 wInput6 "n1" "L1" 4 logFails).1] ∧
      (createAsset wDB6 wInput6 "n1" "L1" 4 logFails).1.id = "n1" ∧
      (createAsset wDB6 wInput6 "n1" "L1" 4 logFails).1.owner = some "u1" ∧
      (logFails = false →
        (createAsset wDB6 wInput6 "n1" "L1" 4 logFails).2.user_activity_logs =
          wDB6.user_activity_logs ++
          [{ id := "L1", user_id := "u1", action := "CREATE", entity_type := "ASSET",
             entity_id := some "n1",
             details := some ("Created asset: " ++ wInput6.name ++ " (" ++
               catStr wInput6.category ++ ")"),
             timestamp := 4 }]) ∧
      (logFails = true →
        (createAsset wDB6 wInput6 "n1" "L1" 4 logFails).2.user_activity_logs =
          wDB6.user_activity_logs) :=
  ⟨rfl, by decide, rfl,
    createAsset_owner_logging wDB6 wInput6 "u1" "n1" "L1" 4 wUser rfl
      (by decide) (by decide) rfl⟩

/-- C10: updateComplaint is not a no-op on an unchanged input: with status and
description each absent or equal to the stored values, the complaint row is
still written with a refreshed updated_at, while zero AssetHistory rows are
appended and the asset table is untouched. -/
theorem updateComplaint_always_writes (db : DB) (input : UpdateComplaintInput)
    (c : Complaint) (now : Nat) (hid1 hid2 : String)
    (hfind : findComplaint db input.id = some c)
    (hst : input.status = none ∨ input.status = some c.status)
    (hdesc : input.description = none ∨ input.description = some c.description) :
    ∃ db', updateComplaint db input now hid1 hid2 =
        Except.ok ({ c with updated_at := now }, db') ∧
      findComplaint db' input.id = some { c with updated_at := now } ∧
      db'.asset_history = db.asset_history ∧
      db'.assets = db.assets ∧
      db'.user_activity_logs = db.user_activity_logs := by
  have happly : applyComplaintUpdate input now c = { c with updated_at := now } := by
    rcases hst with h | h <;> rcases hdesc with h2 | h2 <;>
      simp [applyComplaintUpdate, h, h2]
  have hcid : c.id = input.id := by simpa using List.find?_some hfind
  refine ⟨{ db with complaints := db.complaints.map (fun x =>
      if x.id = input.id then applyComplaintUpdate input now x else x) }, ?_, ?_, rfl, rfl, rfl⟩
  · rcases hst with h | h <;> simp [updateComplaint, hfind, h, happly]
  · have hff : findComplaint db input.id = some c := hfind
    simp only [findComplaint] at hff ⊢
    rw [find?_map_comm _ _ _ (fun x => by
      by_cases hx : x.id = input.id <;> simp [hx, applyComplaintUpdate])]
    simp [hff, hcid, happly]

/-- Witness for C10: an input repeating the stored status and description
still refreshes updated_at but appends no history. -/
theorem updateComplaint_always_writes_witness :
    findComplaint wDB5 "c1" = some wComplaint ∧
    (∃ db', updateComplaint wDB5
        { id := "c1", status := some ComplaintStatus.UNDER_REPAIR, description := some "broken" }
        11 "x1" "x2" = Except.ok ({ wComplaint with updated_at := 11 }, db') ∧
      findComplaint db' "c1" = some { wComplaint with updated_at := 11 } ∧
      db'.asset_history = wDB5.asset_history ∧
      db'.assets = wDB5.assets ∧
      db'.user_activity_logs = wDB5.user_activity_logs) :=
  ⟨by decide,
    updateComplaint_always_writes wDB5 _ wComplaint 11 "x1" "x2" (by decide)
      (by decide) (by decide)⟩

/-- C2: on a changed input, updateAsset applies exactly the provided fields
that differ (null transitions included) plus a refreshed updated_at to the
one matching row, and appends one AssetHistory row per changed field
carrying its old and new values with changed_by null. -/
theorem updateAsset_applies_diffs (db : DB) (input : UpdateAssetInput) (a : Asset)
    (now : Nat) (fid : Nat → String)
    (hfind : findAsset db input.id = some a)
    (hch : ¬ assetChanges input a = []) :
    ∃ db', updateAsset db input now fid =
        Except.ok (applyAssetUpdate input now a, db') ∧
      (applyAssetUpdate input now a).updated_at = now ∧
      (applyAssetUpdate input now a).name = input.name.getD a.name ∧
      (applyAssetUpdate input now a).description = input.description.getD a.description ∧
      (applyAssetUpdate input now a).category = input.category.getD a.category ∧
      (applyAssetUpdate input now a).condition = input.condition.getD a.condition ∧
      (applyAssetUpdate input now a).owner = input.owner.getD a.owner ∧
      (applyAssetUpdate input now a).photo_url = input.photo_url.getD a.photo_url ∧
      findAsset db' input.id = some (applyAssetUpdate input now a) ∧
      db'.asset_history.length = db.asset_history.length +
        ((if input.name ≠ none ∧ input.name ≠ some a.name then 1 else 0) +
         (if input.description ≠ none ∧ input.description ≠ some a.description then 1 else 0) +
         (if input.category ≠ none ∧ input.category ≠ some a.category then 1 else 0) +
         (if input.condition ≠ none ∧ input.condition ≠ some a.condition then 1 else 0) +
         (if input.owner ≠ none ∧ input.owner ≠ some a.owner then 1 else 0) +
         (if input.photo_url ≠ none ∧ input.photo_url ≠ some a.photo_url then 1 else 0)) ∧
      (db'.asset_history.drop db.asset_history.length).map
        (fun h => (h.field_name, h.old_value, h.new_value)) = assetChanges input a ∧
      (∀ h ∈ db'.asset_history.drop db.asset_history.length,
        h.changed_by = none ∧ h.asset_id = input.id ∧ h.changed_at = now) ∧
      (∀ b ∈ db.assets, ¬ b.id = input.id → b ∈ db'.assets) ∧
      db'.complaints = db.complaints ∧ db'.users = db.users ∧
      db'.maintenance_schedules = db.maintenance_schedules ∧
      db'.user_activity_logs = db.user_activity_logs := by
  have hiso : (assetChanges input a).isEmpty = false := by
    cases hc : assetChanges input a with
    | nil => exact absurd hc hch
    | cons x xs => rfl
  have haid : a.id = input.id := by simpa using List.find?_some hfind
  refine ⟨{ db with
      assets := db.assets.map (fun x =>
        if x.id = input.id then applyAssetUpdate input now x else x),
      asset_history := db.asset_history ++ (assetChanges input a).enum.map (fun p =>
        { id := fid p.1, asset_id := input.id, field_name := p.2.1,
          old_value := p.2.2.1, new_value := p.2.2.2,
          changed_by := none, changed_at := now : AssetHistory }) },
    ?_, rfl, ?_, ?_, ?_, ?_, ?_, ?_, ?_, ?_, ?_, ?_, ?_, rfl, rfl, rfl, rfl⟩
  · simp [updateAsset, hfind, hiso]
  · rcases h : input.name with _ | v <;> simp [applyAssetUpdate, h] <;>
      exact fun hv => hv.symm
  · rcases h : input.description with _ | v <;> simp [applyAssetUpdate, h] <;>
      exact fun hv => hv.symm
  · rcases h : input.category with _ | v <;> simp [applyAssetUpdate, h] <;>
      exact fun hv => hv.symm
  · rcases h : input.condition with _ | v <;> simp [applyAssetUpdate, h] <;>
      exact fun hv => hv.symm
  · rcases h : input.owner with _ | v <;> simp [applyAssetUpdate, h] <;>
      exact fun hv => hv.symm
  · rcases h : input.photo_url with _ | v <;> simp [applyAssetUpdate, h] <;>
      exact fun hv => hv.symm
  · have hff : findAsset db input.id = some a := hfind
    simp only [findAsset] at hff ⊢
    rw [find?_map_comm _ _ _ (fun x => by
      by_cases hx : x.id = input.id <;> simp [hx, applyAssetUpdate])]
    simp [hff, haid]
  · simp only [List.length_append, List.length_map, List.enum_length]
    congr 1
    rcases h1 : input.name with _ | v1 <;> rcases h2 : input.description with _ | v2 <;>
      rcases h3 : input.category with _ | v3 <;> rcases h4 : input.condition with _ | v4 <;>
      rcases h5 : input.owner with _ | v5 <;> rcases h6 : input.photo_url with _ | v6 <;>
      simp [assetChanges, h1, h2, h3, h4, h5, h6, apply_ite List.length, Nat.add_assoc]
  · rw [List.drop_left, List.map_map]
    have hcomp : ((fun h : AssetHistory => (h.field_name, h.old_value, h.new_value)) ∘
        (fun p : Nat × (String × Option String × Option String) =>
          { id := fid p.1, asset_id := input.id, field_name := p.2.1,
            old_value := p.2.2.1, new_value := p.2.2.2,
            changed_by := none, changed_at := now : AssetHistory })) = Prod.snd := by
      funext p; rfl
    rw [hcomp, List.enum_map_snd]
  · rw [List.drop_left]
    intro h hh
    simp only [List.mem_map] at hh
    obtain ⟨p, _, rfl⟩ := hh
    exact ⟨rfl, rfl, rfl⟩
  · intro b hb hnb
    have hgb : (if b.id = input.id then applyAssetUpdate input now b else b) = b := by
      simp [hnb]
    simpa [hgb] using List.mem_map_of_mem
      (fun x => if x.id = input.id then applyAssetUpdate input now x else x) hb

def wInput2 : UpdateAssetInput :=
  { id := "a1", name := none, description := none, category := none,
    condition := some AssetCondition.GOOD, owner := some (some "u1"), photo_url := none }

/-- Witness for C2: changing only condition and owner yields exactly two
AssetHistory rows (condition, owner). -/
theorem updateAsset_applies_diffs_witness :
    findAsset wDB "a1" = some wAsset ∧ ¬ assetChanges wInput2 wAsset = [] ∧
    (∃ db', updateAsset wDB wInput2 13 (fun n => toString n) =
        Except.ok (applyAssetUpdate wInput2 13 wAsset, db') ∧
      (applyAssetUpdate wInput2 13 wAsset).updated_at = 13 ∧
      (applyAssetUpdate wInput2 13 wAsset).name = wInput2.name.getD wAsset.name ∧
      (applyAssetUpdate wInput2 13 wAsset).description =
        wInput2.description.getD wAsset.description ∧
      (applyAssetUpdate wInput2 13 wAsset).category = wInput2.category.getD wAsset.category ∧
      (applyAssetUpdate wInput2 13 wAsset).condition = wInput2.condition.getD wAsset.condition ∧
      (applyAssetUpdate wInput2 13 wAsset).owner = wInput2.owner.getD wAsset.owner ∧
      (applyAssetUpdate wInput2 13 wAsset).photo_url = wInput2.photo_url.getD wAsset.photo_url ∧
      findAsset db' wInput2.id = some (applyAssetUpdate wInput2 13 wAsset) ∧
      db'.asset_history.length = wDB.asset_history.length +
        ((if wInput2.name ≠ none ∧ wInput2.name ≠ some wAsset.name then 1 else 0) +
         (if wInput2.description ≠ none ∧ wInput2.description ≠ some wAsset.description then 1 else 0) +
         (if wInput2.category ≠ none ∧ wInput2.category ≠ some wAsset.category then 1 else 0) +
         (if wInput2.condition ≠ none ∧ wInput2.condition ≠ some wAsset.condition then 1 else 0) +
         (if wInput2.owner ≠ none ∧ wInput2.owner ≠ some wAsset.owner then 1 else 0) +
         (if wInput2.photo_url ≠ none ∧ wInput2.photo_url ≠ some wAsset.photo_url then 1 else 0)) ∧
      (db'.asset_history.drop wDB.asset_history.length).map
        (fun h => (h.field_name, h.old_value, h.new_value)) = assetChanges wInput2 wAsset ∧
      (∀ h ∈ db'.asset_history.drop wDB.asset_history.length,
        h.changed_by = none ∧ h.asset_id = wInput2.id ∧ h.changed_at = 13) ∧
      (∀ b ∈ wDB.assets, ¬ b.id = wInput2.id → b ∈ db'.assets) ∧
      db'.complaints = wDB.complaints ∧ db'.users = wDB.users ∧
      db'.maintenance_schedules = wDB.maintenance_schedules ∧
      db'.user_activity_logs = wDB.user_activity_logs) :=
  ⟨by decide, by decide,
    updateAsset_applies_diffs wDB wInput2 wAsset 13 (fun n => toString n)
      (by decide) (by decide)⟩

/-- C1: resolving the last non-resolved complaint of an asset auto-heals the
asset from UNDER_REPAIR to GOOD and appends exactly two AssetHistory rows
(complaint_status then condition); when the asset's condition is not
UNDER_REPAIR, only the complaint_status row is appended and the asset table
is unchanged. -/
theorem updateComplaint_resolve_autoheal (db : DB) (input : UpdateComplaintInput)
    (c : Complaint) (a : Asset) (now : Nat) (hid1 hid2 : String)
    (hfind : findComplaint db input.id = some c)
    (hst : input.status = some ComplaintStatus.RESOLVED)
    (hdiff : ¬ c.status = ComplaintStatus.RESOLVED)
    (hothers : ∀ c' ∈ db.complaints, c'.asset_id = c.asset_id → ¬ c'.id = input.id →
      c'.status = ComplaintStatus.RESOLVED)
    (hasset : findAsset db c.asset_id = some a) :
    (a.condition = AssetCondition.UNDER_REPAIR →
      ∃ db', updateComplaint db input now hid1 hid2 =
          Except.ok (applyComplaintUpdate input now c, db') ∧
        findAsset db' c.asset_id =
          some { a with condition := AssetCondition.GOOD, updated_at := now } ∧
        db'.asset_history = db.asset_history ++
          [{ id := hid1, asset_id := c.asset_id, field_name := "complaint_status",
             old_value := some (statusStr c.status), new_value := some "RESOLVED",
             changed_by := none, changed_at := now },
           { id := hid2, asset_id := c.asset_id, field_name := "condition",
             old_value := some "UNDER_REPAIR", new_value := some "GOOD",
             changed_by := none, changed_at := now }]) ∧
    (¬ a.condition = AssetCondition.UNDER_REPAIR →
      ∃ db', updateComplaint db input now hid1 hid2 =
          Except.ok (applyComplaintUpdate input now c, db') ∧
        db'.assets = db.assets ∧
        db'.asset_history = db.asset_history ++
          [{ id := hid1, asset_id := c.asset_id, field_name := "complaint_status",
             old_value := some (statusStr c.status), new_value := some "RESOLVED",
             changed_by := none, changed_at := now }]) := by
  have hne : ¬ (ComplaintStatus.RESOLVED = c.status) := fun h => hdiff h.symm
  have haaid : a.id = c.asset_id := by simpa using List.find?_some hasset
  have hU : ((db.complaints.map (fun x =>
        if x.id = input.id then applyComplaintUpdate input now x else x)).filter
      (fun x => decide (x.asset_id = c.asset_id))).any
      (fun x => decide (¬ x.id = input.id ∧ ¬ x.status = ComplaintStatus.RESOLVED)) = false := by
    rw [List.any_eq_false]
    intro x hx
    simp only [List.mem_filter, List.mem_map, decide_eq_true_eq] at hx
    obtain ⟨⟨y, hy, rfl⟩, hxa⟩ := hx
    by_cases hyid : y.id = input.id
    · simp [hyid, applyComplaintUpdate]
    · simp only [if_neg hyid] at hxa ⊢
      have hres := hothers y hy hxa hyid
      simp [hres]
  constructor
  · intro hcond
    refine ⟨{ db with
        assets := db.assets.map (fun x =>
          if x.id = c.asset_id then
            { x with condition := AssetCondition.GOOD, updated_at := now }
          else x),
        complaints := db.complaints.map (fun x =>
          if x.id = input.id then applyComplaintUpdate input now x else x),
        asset_history := (db.asset_history ++
          [{ id := hid1, asset_id := c.asset_id, field_name := "complaint_status",
             old_value := some (statusStr c.status),
             new_value := some (statusStr ComplaintStatus.RESOLVED),
             changed_by := none, changed_at := now }]) ++
          [{ id := hid2, asset_id := c.asset_id, field_name := "condition",
             old_value := some "UNDER_REPAIR", new_value := some "GOOD",
             changed_by := none, changed_at := now }] },
      ?_, ?_, ?_⟩
    · simp only [updateComplaint, hfind, hst]
      rw [if_neg hne]
      simp only [if_pos rfl, hU, Bool.false_eq_true, if_false]
      simp only [findAsset] at hasset ⊢
      simp [hasset, hcond]
    · simp only [findAsset]
      rw [find?_map_comm _ _ _ (fun x => by
        by_cases hx : x.id = c.asset_id <;> simp [hx])]
      have hff : db.assets.find? (fun x => decide (x.id = c.asset_id)) = some a := hasset
      simp [hff, haaid]
    · simp [statusStr]
  · intro hcond
    refine ⟨{ db with
        complaints := db.complaints.map (fun x =>
          if x.id = input.id then applyComplaintUpdate input now x else x),
        asset_history := db.asset_history ++
          [{ id := hid1, asset_id := c.asset_id, field_name := "complaint_status",
             old_value := some (statusStr c.status),
             new_value := some (statusStr ComplaintStatus.RESOLVED),
             changed_by := none, changed_at := now }] },
      ?_, rfl, ?_⟩
    · simp only [updateComplaint, hfind, hst]
      rw [if_neg hne]
      simp only [if_pos rfl, hU, Bool.false_eq_true, if_false]
      simp only [findAsset] at hasset ⊢
      simp [hasset, hcond]
    · simp [statusStr]

def wAssetUR : Asset :=
  { wAsset with condition := AssetCondition.UNDER_REPAIR }

def wDB1 : DB :=
  { assets := [wAssetUR], users := [], complaints := [wComplaint], asset_history := [],
    maintenance_schedules := [], user_activity_logs := [] }

def wInput1 : UpdateComplaintInput :=
  { id := "c1", status := some ComplaintStatus.RESOLVED, description := none }

/-- Witness for C1: resolving the only complaint of an UNDER_REPAIR asset
heals it to GOOD with two history rows. -/
theorem updateComplaint_resolve_autoheal_witness :
    findComplaint wDB1 wInput1.id = some wComplaint ∧
    wInput1.status = some ComplaintStatus.RESOLVED ∧
    ¬ wComplaint.status = ComplaintStatus.RESOLVED ∧
    (∀ c' ∈ wDB1.complaints, c'.asset_id = wComplaint.asset_id → ¬ c'.id = wInput1.id →
      c'.status = ComplaintStatus.RESOLVED) ∧
    findAsset wDB1 wComplaint.asset_id = some wAssetUR ∧
    ((wAssetUR.condition = AssetCondition.UNDER_REPAIR →
      ∃ db', updateComplaint wDB1 wInput1 21 "k1" "k2" =
          Except.ok (applyComplaintUpdate wInput1 21 wComplaint, db') ∧
        findAsset db' wComplaint.asset_id =
          some { wAssetUR with condition := AssetCondition.GOOD, updated_at := 21 } ∧
        db'.asset_history = wDB1.asset_history ++
          [{ id := "k1", asset_id := wComplaint.asset_id, field_name := "complaint_status",
             old_value := some (statusStr wComplaint.status), new_value := some "RESOLVED",
             changed_by := none, changed_at := 21 },
           { id := "k2", asset_id := wComplaint.asset_id, field_name := "condition",
             old_value := some "UNDER_REPAIR", new_value := some "GOOD",
             changed_by := none, changed_at := 21 }]) ∧
     (¬ wAssetUR.condition = AssetCondition.UNDER_REPAIR →
      ∃ db', updateComplaint wDB1 wInput1 21 "k1" "k2" =
          Except.ok (applyComplaintUpdate wInput1 21 wComplaint, db') ∧
        db'.assets = wDB1.assets ∧
        db'.asset_history = wDB1.asset_history ++
          [{ id := "k1", asset_id := wComplaint.asset_id, field_name := "complaint_status",
             old_value := some (statusStr wComplaint.status), new_value := some "RESOLVED",
             changed_by := none, changed_at := 21 }])) :=
  ⟨by decide, rfl, by decide, by decide, by decide,
    updateComplaint_resolve_autoheal wDB1 wInput1 wComplaint wAssetUR 21 "k1" "k2"
      (by decide) rfl (by decide) (by decide) (by decide)⟩

/-- C8: the dashboard's condition/category maps cover exactly the nonzero
groups over non-archived assets, pending counts the non-RESOLVED complaints,
upcoming counts the non-completed schedules inside [now, now + 30 days], and
the empty store yields all-zero counts with empty maps. -/
theorem getDashboardStats_spec (db : DB) (now : Nat) :
    (getDashboardStats db now).total_assets = db.assets.length ∧
    (getDashboardStats db now).archived_assets =
      db.assets.countP (fun a => decide (a.is_archived = true)) ∧
    (∀ c n, (c, n) ∈ (getDashboardStats db now).assets_by_condition ↔
      (n = db.assets.countP (fun a => decide (a.is_archived = false ∧ a.condition = c)) ∧
        ¬ n = 0)) ∧
    (∀ c n, (c, n) ∈ (getDashboardStats db now).assets_by_category ↔
      (n = db.assets.countP (fun a => decide (a.is_archived = false ∧ a.category = c)) ∧
        ¬ n = 0)) ∧
    (getDashboardStats db now).pending_complaints =
      db.complaints.countP (fun x => decide (¬ x.status = ComplaintStatus.RESOLVED)) ∧
    (getDashboardStats db now).upcoming_maintenance =
      db.maintenance_schedules.countP (fun m => decide (m.is_completed = false ∧
        now ≤ m.scheduled_date ∧ m.scheduled_date ≤ now + 30 * msPerDay)) ∧
    getDashboardStats emptyDB now = ⟨0, [], [], 0, 0, 0, 0⟩ := by
  have hcntCond : ∀ c : AssetCondition,
      ((db.assets.filter (fun a => decide (a.is_archived = false))).filter
        (fun a => decide (a.condition = c))).length =
      db.assets.countP (fun a => decide (a.is_archived = false ∧ a.condition = c)) := by
    intro c
    rw [List.filter_filter, List.countP_eq_length_filter]
    exact congrArg List.length
      (List.filter_congr (fun a _ => by simp [Bool.and_comm]))
  have hcntCat : ∀ c : AssetCategory,
      ((db.assets.filter (fun a => decide (a.is_archived = false))).filter
        (fun a => decide (a.category = c))).length =
      db.assets.countP (fun a => decide (a.is_archived = false ∧ a.category = c)) := by
    intro c
    rw [List.filter_filter, List.countP_eq_length_filter]
    exact congrArg List.length
      (List.filter_congr (fun a _ => by simp [Bool.and_comm]))
  refine ⟨rfl, by simp [getDashboardStats, List.countP_eq_length_filter], ?_, ?_,
    by simp [getDashboardStats, List.countP_eq_length_filter],
    by simp [getDashboardStats, List.countP_eq_length_filter], rfl⟩
  · intro c n
    have hmem : c ∈ allConditions := by cases c <;> simp [allConditions]
    simp only [getDashboardStats, List.mem_filter, List.mem_map, decide_eq_true_eq]
    constructor
    · rintro ⟨⟨c', hc', heq⟩, hn⟩
      have h1 : c' = c := congrArg Prod.fst heq
      subst h1
      have h2 := congrArg Prod.snd heq
      simp only at h2
      exact ⟨by rw [← h2, hcntCond c'], hn⟩
    · rintro ⟨hn, hn0⟩
      exact ⟨⟨c, hmem, by rw [hcntCond c, ← hn]⟩, hn0⟩
  · intro c n
    have hmem : c ∈ allCategories := by cases c <;> simp [allCategories]
    simp only [getDashboardStats, List.mem_filter, List.mem_map, decide_eq_true_eq]
    constructor
    · rintro ⟨⟨c', hc', heq⟩, hn⟩
      have h1 : c' = c := congrArg Prod.fst heq
      subst h1
      have h2 := congrArg Prod.snd heq
      simp only at h2
      exact ⟨by rw [← h2, hcntCat c'], hn⟩
    · rintro ⟨hn, hn0⟩
      exact ⟨⟨c, hmem, by rw [hcntCat c, ← hn]⟩, hn0⟩

def wDB8 : DB :=
  { assets := [wAsset, wArchAsset], users := [wUser], complaints := [wComplaint],
    asset_history := [wHist], maintenance_schedules := [wMaint],
    user_activity_logs := [] }

/-- Witness for C8: instantiation at a mixed store with one archived and one
live asset. -/
theorem getDashboardStats_spec_witness :
    (getDashboardStats wDB8 2).total_assets = wDB8.assets.length ∧
    (getDashboardStats wDB8 2).archived_assets =
      wDB8.assets.countP (fun a => decide (a.is_archived = true)) ∧
    (∀ c n, (c, n) ∈ (getDashboardStats wDB8 2).assets_by_condition ↔
      (n = wDB8.assets.countP (fun a => decide (a.is_archived = false ∧ a.condition = c)) ∧
        ¬ n = 0)) ∧
    (∀ c n, (c, n) ∈ (getDashboardStats wDB8 2).assets_by_category ↔
      (n = wDB8.assets.countP (fun a => decide (a.is_archived = false ∧ a.category = c)) ∧
        ¬ n = 0)) ∧
    (getDashboardStats wDB8 2).pending_complaints =
      wDB8.complaints.countP (fun x => decide (¬ x.status = ComplaintStatus.RESOLVED)) ∧
    (getDashboardStats wDB8 2).upcoming_maintenance =
      wDB8.maintenance_schedules.countP (fun m => decide (m.is_completed = false ∧
        2 ≤ m.scheduled_date ∧ m.scheduled_date ≤ 2 + 30 * msPerDay)) ∧
    getDashboardStats emptyDB 2 = ⟨0, [], [], 0, 0, 0, 0⟩ :=
  getDashboardStats_spec wDB8 2

end Siac
